import Mathlib

/-!
Verification development for a two-participant WebRTC calling demo:
a signaling relay (Koa websocket server) that fans every message out to all
other connected clients, and a per-participant negotiation engine implementing
the perfect-negotiation pattern (polite/impolite roles, offer collision
handling, candidate tolerance) plus session-controller glue (status, teardown,
reactions).  The definitions below are shallow embeddings of the TypeScript
source; theorems check the documented properties against them.
-/

namespace WebrtcDemo

/-- Model of JavaScript `a.localeCompare(b)` as used on the nanoid participant
ids: the sign of a strict total-order comparison of the two strings, returning
-1, 0 or 1 (the values browsers return for the default locale).  The order used
is the lexicographic order on strings. -/
def localeCompare (a b : String) : Int :=
  if a < b then -1 else if a = b then 0 else 1

/-- Politeness computation from the websocket message handler:
`const polite = data.id.localeCompare(id) === 1`.  The first argument is the
remote id carried by the inbound envelope (`data.id`), the second the local
participant id (`id`). -/
def polite (remoteId localId : String) : Bool :=
  localeCompare remoteId localId == 1

/-- `polite remote local` is true exactly when the remote id sorts strictly
after the local id. -/
theorem polite_iff_gt (remoteId localId : String) :
    polite remoteId localId = true ↔ localId < remoteId := by
  unfold polite localeCompare
  rcases lt_trichotomy remoteId localId with hlt | heq | hgt
  · simp [hlt, not_lt_of_lt hlt]
  · simp [heq, lt_irrefl]
  · have h1 : ¬ remoteId < localId := not_lt_of_lt hgt
    have h2 : ¬ remoteId = localId := (ne_of_lt hgt).symm
    simp [h1, h2, hgt]

/-- Discriminant of a session description: `offer`, `answer` or `rollback`. -/
inductive DescKind
  | offer
  | answer
  | rollback
  deriving DecidableEq

/-- Signaling phase of the peer connection, mirroring
`peerConnection.signalingState` as far as the handler reads it. -/
inductive SignalingState
  | stable
  | haveLocalOffer
  | haveRemoteOffer
  deriving DecidableEq

/-- A parsed signaling envelope as read by `webSocket.onmessage`:
`data.id` is the sender id, `data.description` (if present) is modelled by its
discriminant, `data.candidate` (if present) is an opaque blob. -/
structure SignalMessage where
  id : String
  description : Option DescKind
  candidate : Option String
  deriving DecidableEq

/-- Observable effects of the negotiation engine: calls into the peer
connection capability, messages sent over the relay socket, and console
error reports. -/
inductive Action
  | setLocalOffer
  | setLocalAnswer
  | setLocalRollback
  | setRemote (kind : DescKind)
  | sendEnvelope (senderId : String) (kind : DescKind)
  | addCandidate
  | logError
  deriving DecidableEq

/-- Per-call negotiation state: the local participant id plus the mutable
flags `makingOffer` and `ignoreOffer` from the closure, and the mirrored
signaling phase of the peer connection. -/
structure EngineState where
  localId : String
  makingOffer : Bool
  ignoreOffer : Bool
  signaling : SignalingState
  deriving DecidableEq

/-- Modelled capability behaviour: signaling phase after
`setLocalDescription` of a description of the given kind. -/
def afterSetLocal : DescKind → SignalingState
  | DescKind.offer => SignalingState.haveLocalOffer
  | DescKind.answer => SignalingState.stable
  | DescKind.rollback => SignalingState.stable

/-- Modelled capability behaviour: signaling phase after
`setRemoteDescription` of a description of the given kind. -/
def afterSetRemote : DescKind → SignalingState
  | DescKind.offer => SignalingState.haveRemoteOffer
  | DescKind.answer => SignalingState.stable
  | DescKind.rollback => SignalingState.stable

/-- Big-step model of `makeOffer` (success path): set `makingOffer`, create an
offer, set it as local description, send the envelope `{ id, description }`
over the socket, and clear `makingOffer` in the `finally` block. -/
def makeOffer (s : EngineState) : EngineState × List Action :=
  ({ s with makingOffer := false, signaling := afterSetLocal DescKind.offer },
   [Action.setLocalOffer, Action.sendEnvelope s.localId DescKind.offer])

/-- The `if (data.description)` block of `webSocket.onmessage`: compute
`polite`, detect an offer collision, set `ignoreOffer`, and either drop the
envelope (retrying with a fresh offer when not already making one), or apply
rollback plus the remote description and answer an offer.  The third component
records whether the handler returned early (the `return` inside the
`ignoreOffer` branch), which skips the candidate block. -/
def handleDescription (s : EngineState) (remoteId : String) (k : DescKind) :
    EngineState × List Action × Bool :=
  let isPolite := polite remoteId s.localId
  let offerCollision :=
    k == DescKind.offer &&
      (s.makingOffer || !(s.signaling == SignalingState.stable))
  let s1 := { s with ignoreOffer := !isPolite && offerCollision }
  if s1.ignoreOffer then
    if !s1.makingOffer then
      let r := makeOffer s1
      (r.1, r.2, true)
    else
      (s1, [], true)
  else
    let r1 : EngineState × List Action :=
      if offerCollision then
        ({ s1 with signaling := afterSetRemote k },
         [Action.setLocalRollback, Action.setRemote k])
      else
        ({ s1 with signaling := afterSetRemote k }, [Action.setRemote k])
    if k == DescKind.offer then
      ({ r1.1 with signaling := afterSetLocal DescKind.answer },
       r1.2 ++ [Action.setLocalAnswer,
                Action.sendEnvelope s.localId DescKind.answer],
       false)
    else
      (r1.1, r1.2, false)

/-- The `if (data.candidate)` block of `webSocket.onmessage`:
`addIceCandidate` is attempted inside a try/catch; on failure the error is
logged unless `ignoreOffer` is set, in which case it is swallowed.  The
parameter `fails` models the outcome of the capability call. -/
def handleCandidate (s : EngineState) (fails : Bool) : List Action :=
  Action.addCandidate ::
    (if fails && !s.ignoreOffer then [Action.logError] else [])

/-- Big-step model of the whole `webSocket.onmessage` handler: the description
block first, then — unless that block returned early — the candidate block. -/
def onMessage (s : EngineState) (m : SignalMessage) (candidateFails : Bool) :
    EngineState × List Action :=
  let d :=
    match m.description with
    | none => (s, ([] : List Action), false)
    | some k => handleDescription s m.id k
  if d.2.2 then
    (d.1, d.2.1)
  else
    match m.candidate with
    | none => (d.1, d.2.1)
    | some _ => (d.1, d.2.1 ++ handleCandidate d.1 candidateFails)

/-- Concrete engine state of Peer A in the simultaneous-offer scenario:
id `"aaa"`, own offer already sent (`makingOffer` back to `false`,
signaling phase `have-local-offer`). -/
def engineA : EngineState :=
  ⟨"aaa", false, false, SignalingState.haveLocalOffer⟩

/-- Concrete engine state of Peer B in the simultaneous-offer scenario:
id `"bbb"`, own offer already sent. -/
def engineB : EngineState :=
  ⟨"bbb", false, false, SignalingState.haveLocalOffer⟩

/-! ### Interleaving model of the offer path

`onnegotiationneeded` invokes the async `makeOffer` without awaiting it, so a
second firing can arrive while the first invocation is suspended at
`await createOffer` / `await setLocalDescription`.  `OfferMachine` tracks the
closure flag `makingOffer`, the number of suspended `makeOffer` invocations,
and the number of offer envelopes sent so far. -/

/-- State of the offer path under interleaved `onnegotiationneeded` firings. -/
structure OfferMachine where
  makingOffer : Bool
  pending : Nat
  sent : Nat
  deriving DecidableEq

/-- Events of the interleaving model: `fire` is an `onnegotiationneeded`
firing (the handler calls `makeOffer`, which synchronously sets
`makingOffer = true` and suspends at its first await); `complete` resumes one
suspended invocation to completion (set local description, send the offer
envelope, then `finally \x7b makingOffer = false \x7d`). -/
inductive OfferEvent
  | fire
  | complete
  deriving DecidableEq

/-- One step of the interleaving model.  The handler
`onnegotiationneeded = () => makeOffer()` has no guard on `makingOffer`, so
`fire` always starts a new invocation. -/
def offerStep (s : OfferMachine) : OfferEvent → OfferMachine
  | OfferEvent.fire =>
      { s with makingOffer := true, pending := s.pending + 1 }
  | OfferEvent.complete =>
      match s.pending with
      | 0 => s
      | p + 1 => { makingOffer := false, pending := p, sent := s.sent + 1 }

/-- Run a sequence of offer-path events. -/
def runOffer (s : OfferMachine) (events : List OfferEvent) : OfferMachine :=
  events.foldl offerStep s

/-- Offer-path state at call setup: no offer in flight, none sent. -/
def initOfferMachine : OfferMachine := ⟨false, 0, 0⟩

/-! ### Relay

The Koa websocket server keeps a `Set` of connected clients; a message from
one client is forwarded to every other member of the set, and a closed client
is deleted from the set.  Clients are modelled by their handles as strings;
the JS `Set` is modelled as a duplicate-free list. -/

/-- Clients that receive a message sent by `sender`: every member of the
fan-out set except the sender itself (`client !== ctx.websocket`). -/
def recipients (clients : List String) (sender : String) : List String :=
  clients.filter (fun c => c != sender)

/-- The `close` handler: `clients.delete(ctx.websocket)`. -/
def removeClient (clients : List String) (c : String) : List String :=
  clients.filter (fun x => x != c)

/-- The connection handler: `clients.add(ctx.websocket)`. -/
def addClient (clients : List String) (c : String) : List String :=
  if c ∈ clients then clients else clients ++ [c]

/-! ### Session controller

The App component: call status, received reactions, the nullable refs
`sendReactionRef` / `disposeRef`, and tallies of how many times each resource
release has run (socket close, peer connection close, media track stops). -/

/-- Coarse call status of the controller. -/
inductive CallStatus
  | idle
  | calling
  | inProgress
  deriving DecidableEq

/-- Connectivity states of `peerConnection.iceConnectionState`. -/
inductive IceConnectionState
  | new
  | checking
  | connected
  | completed
  | disconnected
  | failed
  | closed
  deriving DecidableEq

/-- Observable controller effects: sounds, console errors, `restartIce`, and
payloads sent on the data channel. -/
inductive CallAction
  | playSound (file : String)
  | logError
  | restartIce
  | sendData (payload : String)
  deriving DecidableEq

/-- Controller state.  `sendReactionSet` / `disposeSet` model whether the
corresponding ref currently holds a function; `tracks` is the number of local
media tracks acquired at setup; the three counters tally resource releases. -/
structure AppState where
  status : CallStatus
  reactions : List String
  sendReactionSet : Bool
  disposeSet : Bool
  tracks : Nat
  socketCloses : Nat
  pcCloses : Nat
  trackStops : Nat
  deriving DecidableEq

/-- The dispose closure stored in `disposeRef` at setup: close the socket and
the peer connection, stop every local track, then null out both refs.  The
surrounding `disposeRef.current?.()` call is the guard on `disposeSet`: when
the ref is null nothing runs. -/
def dispose (s : AppState) : AppState :=
  if s.disposeSet then
    { s with
      socketCloses := s.socketCloses + 1,
      pcCloses := s.pcCloses + 1,
      trackStops := s.trackStops + s.tracks,
      sendReactionSet := false,
      disposeSet := false }
  else s

/-- `onDisconnect`: play the stop sound, set status to idle, clear reactions,
then invoke the dispose closure if present. -/
def onDisconnect (s : AppState) : AppState × List CallAction :=
  (dispose { s with status := CallStatus.idle, reactions := [] },
   [CallAction.playSound "alert-stop.mp3"])

/-- The catch block of `onStartCall`: log the error and route through
`onDisconnect`.  The status had been set to `calling` at the top of
`onStartCall`. -/
def onStartCallFailure (s : AppState) : AppState × List CallAction :=
  ((onDisconnect { s with status := CallStatus.calling }).1,
   CallAction.logError ::
     (onDisconnect { s with status := CallStatus.calling }).2)

/-- `oniceconnectionstatechange`: `restartIce` when the new state is
`failed`, `onDisconnect` when it is `disconnected`. -/
def onIceConnectionStateChange (s : AppState) (st : IceConnectionState) :
    AppState × List CallAction :=
  let restartActs :=
    if st == IceConnectionState.failed then [CallAction.restartIce] else []
  if st == IceConnectionState.disconnected then
    ((onDisconnect s).1, restartActs ++ (onDisconnect s).2)
  else
    (s, restartActs)

/-- `onReaction`: `sendReactionRef.current?.(reaction)` — send on the data
channel only when the ref holds a function, otherwise do nothing. -/
def onReaction (s : AppState) (r : String) : AppState × List CallAction :=
  if s.sendReactionSet then (s, [CallAction.sendData r]) else (s, [])

/-- Controller state before any call has been started: both refs null. -/
def initialAppState : AppState :=
  ⟨CallStatus.idle, [], false, false, 0, 0, 0, 0⟩

/-- Controller state right after a successful call setup: both refs set, two
local media tracks (video and audio) acquired, no release has run yet. -/
def setupAppState : AppState :=
  ⟨CallStatus.calling, [], true, true, 2, 0, 0, 0⟩

/-! ### Theorems -/

/-- C2: for every pair of distinct participant ids, the politeness
computation run on the two peers (each comparing the remote id in the inbound
envelope against its own local id) yields `polite = true` on exactly one of
the two peers and `polite = false` on the other. -/
theorem polite_exactly_one (a b : String) (h : a ≠ b) :
    (polite a b = true ∧ polite b a = false) ∨
    (polite a b = false ∧ polite b a = true) := by
  rcases lt_trichotomy a b with hlt | heq | hgt
  · right
    constructor
    · cases hpb : polite a b with
      | false => rfl
      | true => exact absurd ((polite_iff_gt a b).mp hpb) (not_lt_of_lt hlt)
    · exact (polite_iff_gt b a).mpr hlt
  · exact absurd heq h
  · left
    constructor
    · exact (polite_iff_gt a b).mpr hgt
    · cases hpb : polite b a with
      | false => rfl
      | true => exact absurd ((polite_iff_gt b a).mp hpb) (not_lt_of_lt hgt)

/-- C2 witness: the pair of ids "aaa" and "bbb" is distinct and exactly one
direction of the politeness computation yields true. -/
theorem polite_exactly_one_witness :
    ("aaa" : String) ≠ "bbb" ∧
    ((polite "aaa" "bbb" = true ∧ polite "bbb" "aaa" = false) ∨
     (polite "aaa" "bbb" = false ∧ polite "bbb" "aaa" = true)) :=
  ⟨by decide, polite_exactly_one "aaa" "bbb" (by decide)⟩

/-- C3 counterexample: the claim says Peer B (local id "bbb"), processing an
envelope whose sender id is "aaa", computes `polite = true`; the code
computes `"aaa".localeCompare("bbb") === 1`, which is false, so B is the
impolite peer. -/
theorem scenario_polite_cex : polite "aaa" "bbb" = false := by
  simp [polite, localeCompare]
  decide

/-- C3 amended: with ids "aaa" and "bbb" the code makes A the polite peer
(`polite = true` when comparing remote "bbb" to local "aaa") and B the
impolite one, so B is the side that sets `ignoreOffer = true` and drops the
offer from A (emitting a fresh offer of its own, `makingOffer` being false),
while A rolls back and answers the offer from B. -/
theorem scenario_roles :
    polite "bbb" "aaa" = true ∧ polite "aaa" "bbb" = false ∧
    onMessage engineB ⟨"aaa", some DescKind.offer, none⟩ false =
      (⟨"bbb", false, true, SignalingState.haveLocalOffer⟩,
       [Action.setLocalOffer, Action.sendEnvelope "bbb" DescKind.offer]) ∧
    onMessage engineA ⟨"bbb", some DescKind.offer, none⟩ false =
      (⟨"aaa", false, false, SignalingState.stable⟩,
       [Action.setLocalRollback, Action.setRemote DescKind.offer,
        Action.setLocalAnswer, Action.sendEnvelope "aaa" DescKind.answer]) := by
  have hab : polite "aaa" "bbb" = false := by
    simp [polite, localeCompare]
    decide
  have hba : polite "bbb" "aaa" = true := by
    simp [polite, localeCompare]
    decide
  refine ⟨hba, hab, ?_, ?_⟩
  · simp [onMessage, handleDescription, makeOffer, engineB, hab, afterSetLocal]
  · simp [onMessage, handleDescription, engineA, hba, afterSetLocal,
      afterSetRemote]

/-- C1 counterexample: two `negotiation-needed` firings before the first
offer completes are not collapsed to at most one offer envelope: the handler
calls `makeOffer` unconditionally, so the interleaving fire, fire, complete,
complete emits two offer envelopes. -/
theorem offer_storm_cex :
    ¬ (runOffer initOfferMachine
        [OfferEvent.fire, OfferEvent.fire, OfferEvent.complete,
         OfferEvent.complete]).sent ≤ 1 := by
  decide

/-- C1 amended: the `onnegotiationneeded` handler has no `makingOffer` guard;
every firing starts a `makeOffer` invocation even when `makingOffer` is
already true, and two firings before the first offer completes emit two offer
envelopes, one per firing. -/
theorem offer_per_firing :
    (∀ s : OfferMachine,
      (offerStep s OfferEvent.fire).pending = s.pending + 1 ∧
      (offerStep s OfferEvent.fire).makingOffer = true) ∧
    runOffer initOfferMachine
      [OfferEvent.fire, OfferEvent.fire, OfferEvent.complete,
       OfferEvent.complete] = ⟨false, 0, 2⟩ :=
  ⟨fun _ => ⟨rfl, rfl⟩, by decide⟩

/-- C4: an inbound offer at an impolite peer in collision sets
`ignoreOffer = true`, applies nothing from the envelope (no remote
description, no rollback, no answer), and when `makingOffer` is false the
handler immediately emits its own offer within the same processing step;
when `makingOffer` is true it emits nothing. -/
theorem ignore_then_retry (s : EngineState) (remoteId : String) (cf : Bool)
    (hpol : polite remoteId s.localId = false)
    (hcol : s.makingOffer = true ∨ s.signaling ≠ SignalingState.stable) :
    (onMessage s ⟨remoteId, some DescKind.offer, none⟩ cf).1.ignoreOffer
      = true ∧
    Action.setRemote DescKind.offer ∉
      (onMessage s ⟨remoteId, some DescKind.offer, none⟩ cf).2 ∧
    Action.setLocalRollback ∉
      (onMessage s ⟨remoteId, some DescKind.offer, none⟩ cf).2 ∧
    Action.sendEnvelope s.localId DescKind.answer ∉
      (onMessage s ⟨remoteId, some DescKind.offer, none⟩ cf).2 ∧
    (s.makingOffer = false →
      (onMessage s ⟨remoteId, some DescKind.offer, none⟩ cf).2 =
        [Action.setLocalOffer,
         Action.sendEnvelope s.localId DescKind.offer]) ∧
    (s.makingOffer = true →
      (onMessage s ⟨remoteId, some DescKind.offer, none⟩ cf).2 = []) := by
  cases hmo : s.makingOffer with
  | true =>
    simp [onMessage, handleDescription, hpol, hmo, makeOffer]
  | false =>
    have hsig : s.signaling ≠ SignalingState.stable := by
      rcases hcol with h | h
      · rw [hmo] at h
        cases h
      · exact h
    have hbeq : (s.signaling == SignalingState.stable) = false := by
      cases hq : s.signaling == SignalingState.stable with
      | false => rfl
      | true => exact absurd (eq_of_beq hq) hsig
    simp [onMessage, handleDescription, hpol, hmo, hbeq, makeOffer,
      afterSetLocal]

/-- C4 witness: Peer B (impolite, own offer outstanding so signaling is not
stable, `makingOffer` false) receiving the offer from "aaa" sets
`ignoreOffer`, applies nothing, and emits a fresh offer in the same step. -/
theorem ignore_then_retry_witness :
    polite "aaa" engineB.localId = false ∧
    (engineB.makingOffer = true ∨
      engineB.signaling ≠ SignalingState.stable) ∧
    ((onMessage engineB ⟨"aaa", some DescKind.offer, none⟩ false).1.ignoreOffer
        = true ∧
      Action.setRemote DescKind.offer ∉
        (onMessage engineB ⟨"aaa", some DescKind.offer, none⟩ false).2 ∧
      Action.setLocalRollback ∉
        (onMessage engineB ⟨"aaa", some DescKind.offer, none⟩ false).2 ∧
      Action.sendEnvelope engineB.localId DescKind.answer ∉
        (onMessage engineB ⟨"aaa", some DescKind.offer, none⟩ false).2 ∧
      (engineB.makingOffer = false →
        (onMessage engineB ⟨"aaa", some DescKind.offer, none⟩ false).2 =
          [Action.setLocalOffer,
           Action.sendEnvelope engineB.localId DescKind.offer]) ∧
      (engineB.makingOffer = true →
        (onMessage engineB ⟨"aaa", some DescKind.offer, none⟩ false).2
          = [])) := by
  have hpol : polite "aaa" engineB.localId = false := by
    simp [engineB, polite, localeCompare]
    decide
  have hcol : engineB.makingOffer = true ∨
      engineB.signaling ≠ SignalingState.stable := by
    right
    decide
  exact ⟨hpol, hcol, ignore_then_retry engineB "aaa" false hpol hcol⟩

/-- C5: an inbound offer at a polite peer in collision applies the rollback
together with the remote description, then creates an answer, sets it as
local description, and emits an answer envelope carrying the local id; the
final signaling phase is stable and the offer is not ignored. -/
theorem polite_rollback_answer (s : EngineState) (remoteId : String)
    (cf : Bool)
    (hpol : polite remoteId s.localId = true)
    (hcol : s.makingOffer = true ∨ s.signaling ≠ SignalingState.stable) :
    onMessage s ⟨remoteId, some DescKind.offer, none⟩ cf =
      ({ s with ignoreOffer := false, signaling := SignalingState.stable },
       [Action.setLocalRollback, Action.setRemote DescKind.offer,
        Action.setLocalAnswer,
        Action.sendEnvelope s.localId DescKind.answer]) := by
  have hocol : (s.makingOffer || !(s.signaling == SignalingState.stable))
      = true := by
    rcases hcol with h | h
    · simp [h]
    · have hbeq : (s.signaling == SignalingState.stable) = false := by
        cases hq : s.signaling == SignalingState.stable with
        | false => rfl
        | true => exact absurd (eq_of_beq hq) h
      simp [hbeq]
  simp [onMessage, handleDescription, hpol, hocol, afterSetLocal,
    afterSetRemote]

/-- C5 witness: Peer A (polite, own offer outstanding) receiving the offer
from "bbb" rolls back, applies the remote offer, and emits an answer
envelope carrying its local id "aaa". -/
theorem polite_rollback_answer_witness :
    polite "bbb" engineA.localId = true ∧
    (engineA.makingOffer = true ∨
      engineA.signaling ≠ SignalingState.stable) ∧
    onMessage engineA ⟨"bbb", some DescKind.offer, none⟩ false =
      ({ engineA with
          ignoreOffer := false
          signaling := SignalingState.stable },
       [Action.setLocalRollback, Action.setRemote DescKind.offer,
        Action.setLocalAnswer,
        Action.sendEnvelope engineA.localId DescKind.answer]) := by
  have hpol : polite "bbb" engineA.localId = true := by
    simp [engineA, polite, localeCompare]
    decide
  have hcol : engineA.makingOffer = true ∨
      engineA.signaling ≠ SignalingState.stable := by
    right
    decide
  exact ⟨hpol, hcol, polite_rollback_answer engineA "bbb" false hpol hcol⟩

/-- C6: an inbound candidate envelope leaves the engine state unchanged and
only ever attempts the candidate addition plus, possibly, one log report;
when the addition fails the failure is reported exactly when `ignoreOffer`
is false (swallowed when `ignoreOffer` is true), and no teardown or any
other action is triggered in any case. -/
theorem candidate_tolerance (s : EngineState) (remoteId cand : String)
    (cf : Bool) :
    onMessage s ⟨remoteId, none, some cand⟩ cf =
      (s, Action.addCandidate ::
        (if cf && !s.ignoreOffer then [Action.logError] else [])) ∧
    (Action.logError ∈ (onMessage s ⟨remoteId, none, some cand⟩ cf).2 ↔
      (cf = true ∧ s.ignoreOffer = false)) := by
  constructor
  · simp [onMessage, handleCandidate]
  · simp only [onMessage, handleCandidate]
    cases cf <;> cases hio : s.ignoreOffer <;> simp [hio]

/-- C7: the relay forwards a message from a joined client to every other
client joined at that moment and never back to the sender; a removed
(closed) client is not among the recipients of any later send. -/
theorem relay_fanout (clients : List String) (sender c : String) :
    sender ∉ recipients clients sender ∧
    (c ∈ recipients clients sender ↔ (c ∈ clients ∧ c ≠ sender)) ∧
    c ∉ recipients (removeClient clients c) sender := by
  refine ⟨?_, ?_, ?_⟩
  · simp [recipients]
  · simp [recipients]
  · simp [recipients, removeClient]

/-- C8: teardown is idempotent — running `onDisconnect` a second time
produces the same state and actions as the first run, running it when no
call was ever set up releases nothing, and after a call setup the socket
close, peer connection close, and track stops run at most once across
repeated invocations. -/
theorem teardown_idempotent :
    (∀ s : AppState, onDisconnect (onDisconnect s).1 = onDisconnect s) ∧
    (onDisconnect initialAppState).1.socketCloses = 0 ∧
    (onDisconnect initialAppState).1.pcCloses = 0 ∧
    (onDisconnect initialAppState).1.trackStops = 0 ∧
    (onDisconnect (onDisconnect setupAppState).1).1.socketCloses = 1 ∧
    (onDisconnect (onDisconnect setupAppState).1).1.pcCloses = 1 ∧
    (onDisconnect (onDisconnect setupAppState).1).1.trackStops = 2 := by
  refine ⟨?_, by decide, by decide, by decide, by decide, by decide,
    by decide⟩
  intro s
  by_cases h : s.disposeSet
  · simp [onDisconnect, dispose, h]
  · simp [onDisconnect, dispose, h]

/-- C9: on a connectivity state change the engine calls `restartIce` exactly
when the new state is `failed` and performs teardown (stop sound,
`onDisconnect`) exactly when the new state is `disconnected`; an error
thrown during call setup routes through the same teardown path and leaves
the controller status at idle, never stuck at calling. -/
theorem ice_state_dispatch :
    (∀ (s : AppState) (st : IceConnectionState),
      (CallAction.restartIce ∈ (onIceConnectionStateChange s st).2 ↔
        st = IceConnectionState.failed) ∧
      (CallAction.playSound "alert-stop.mp3" ∈
          (onIceConnectionStateChange s st).2 ↔
        st = IceConnectionState.disconnected) ∧
      (onIceConnectionStateChange s st).1 =
        (if st = IceConnectionState.disconnected
          then (onDisconnect s).1 else s)) ∧
    (∀ s : AppState, (onStartCallFailure s).1.status = CallStatus.idle) := by
  constructor
  · intro s st
    cases st <;> simp [onIceConnectionStateChange, onDisconnect]
  · intro s
    by_cases h : s.disposeSet <;>
      simp [onStartCallFailure, onDisconnect, dispose, h]

/-- C10: invoking `onReaction` while the send-function ref is null performs
no action and changes nothing; the ref is null in the initial state (before
any call) and after teardown of a set-up call, so the operation is a guarded
no-op in those states. -/
theorem reaction_guarded :
    (∀ (s : AppState) (r : String),
      s.sendReactionSet = false → onReaction s r = (s, [])) ∧
    initialAppState.sendReactionSet = false ∧
    (onDisconnect setupAppState).1.sendReactionSet = false := by
  refine ⟨?_, rfl, by decide⟩
  intro s r h
  simp [onReaction, h]

/-- C10 witness: in the initial state the ref is null and sending a reaction
is a no-op. -/
theorem reaction_guarded_witness :
    initialAppState.sendReactionSet = false ∧
    onReaction initialAppState "wave" = (initialAppState, []) :=
  ⟨rfl, reaction_guarded.1 initialAppState "wave" rfl⟩

end WebrtcDemo
